import Mathlib

/- Verification of the Flax RWKV forward-pass core
   (src/lib/python/EasyDel/modules/rwkv/modelling_rwkv_flax.py).

   Modelling conventions:
   * Floating-point arrays are modelled over the exact reals.  Dtype casts
     (the torch-style `.float()` on line 54, `.astype(...)` on line 62) are
     therefore the identity, and finiteness of every quantity is intrinsic
     to the model.
   * The WKV kernel `rwkv_linear_attention` is elementwise in the batch and
     channel axes: every operation it performs (maximum, exp, product, sum,
     quotient) acts pointwise on `[B, A]` slices, and the accumulator of one
     `(batch, channel)` lane never reads another lane.  The scalar embedding
     below follows one such lane; `rwkvLinearAttentionV` is the channel-vector
     form used inside the attention sublayer.
   * In-place array writes (`output[:, i] = ...`, `state[1][...] = ...`)
     are modelled as functional updates.  A write or elementwise operation
     whose operand shapes do not agree is modelled as an error value,
     mirroring the exception numpy/jax raises for it.
   * Arrays are nested lists with the batch axis dropped (the forward pass
     is batch-parallel and never mixes batch rows); a per-layer `[B, H, L]`
     state tensor becomes a function from the layer index to the `[H]`
     vector stored for that layer.
-/

noncomputable section

namespace Rwkv

/-- A hidden sequence: one channel vector per timestep. -/
abbrev HSeq := List (List ℝ)

/-- The WKV accumulator triple of one (batch, channel) lane:
running numerator, running denominator, running log-domain maximum. -/
structure WkvAcc where
  num : ℝ
  den : ℝ
  maxv : ℝ

/-- One accumulator update of `rwkv_linear_attention` (source lines 64-69) on a
single (batch, channel) lane; `decay` is the already-negated `-exp(time_decay)`. -/
def wkvUpdate (decay k v : ℝ) (s : WkvAcc) : WkvAcc where
  num := Real.exp (s.maxv + decay - max (s.maxv + decay) k) * s.num
    + Real.exp (k - max (s.maxv + decay) k) * v
  den := Real.exp (s.maxv + decay - max (s.maxv + decay) k) * s.den
    + Real.exp (k - max (s.maxv + decay) k)
  maxv := max (s.maxv + decay) k

/-- The denominator `e1 * den_state + e2` of a per-timestep output
(source line 61). -/
def wkvOutDen (tf k : ℝ) (s : WkvAcc) : ℝ :=
  Real.exp (s.maxv - max s.maxv (k + tf)) * s.den
    + Real.exp (k + tf - max s.maxv (k + tf))

/-- The per-timestep output `numerator / denominator` (source lines 57-62). -/
def wkvOutput (tf k v : ℝ) (s : WkvAcc) : ℝ :=
  (Real.exp (s.maxv - max s.maxv (k + tf)) * s.num
    + Real.exp (k + tf - max s.maxv (k + tf)) * v) / wkvOutDen tf k s

/-- The sequential time loop of `rwkv_linear_attention` (source lines 53-69):
each timestep first emits its output from the current accumulator, then
updates the accumulator. -/
def wkvLoop (decay tf : ℝ) : List (ℝ × ℝ) → WkvAcc → List ℝ × WkvAcc
  | [], s => ([], s)
  | (k, v) :: rest, s =>
    let o := wkvOutput tf k v s
    let r := wkvLoop decay tf rest (wkvUpdate decay k v s)
    (o :: r.1, r.2)

/-- Initial accumulator of the kernel (source lines 44-49): zeros with the
`-1e38` sentinel maximum when no state is supplied, otherwise the supplied
state. -/
def wkvInit : Option WkvAcc → WkvAcc
  | none => ⟨0, 0, -1e38⟩
  | some s => s

/-- `rwkv_linear_attention` (source lines 40-74) on one (batch, channel) lane.
The preallocated `output` array written index-by-index becomes the list of
outputs; the final `state` is returned exactly when `return_state or state is
not None`, and otherwise the incoming `state` (then `None`) is passed through. -/
def rwkvLinearAttention (timeDecay timeFirst : ℝ) (key value : List ℝ)
    (state : Option WkvAcc) (returnState : Bool) : List ℝ × Option WkvAcc :=
  let r := wkvLoop (-Real.exp timeDecay) timeFirst (key.zip value) (wkvInit state)
  (r.1, if returnState || state.isSome then some r.2 else state)

/-- The accumulator reached after scanning a list of (key, value) pairs,
as a fold of `wkvUpdate`. -/
def wkvStateAfter (decay : ℝ) (s : WkvAcc) (kvs : List (ℝ × ℝ)) : WkvAcc :=
  kvs.foldl (fun t kv => wkvUpdate decay kv.1 kv.2 t) s

/-- Spec-side definition, written from the pseudocode of spec section 4.1
(the sequential scan with `m_out`, `e1`, `e2`, the emitted quotient, and the
`m_new`-shifted accumulator update); `decay` is already `-exp(time_decay)`.
Kept separate from `wkvLoop` so that the kernel can be compared against it. -/
def wkvSpecScan (decay tf : ℝ) : List (ℝ × ℝ) → WkvAcc → List ℝ × WkvAcc
  | [], s => ([], s)
  | (k, v) :: rest, s =>
    let mOut := max s.maxv (k + tf)
    let e1 := Real.exp (s.maxv - mOut)
    let e2 := Real.exp (k + tf - mOut)
    let o := (e1 * s.num + e2 * v) / (e1 * s.den + e2)
    let mNew := max (s.maxv + decay) k
    let f1 := Real.exp (s.maxv + decay - mNew)
    let f2 := Real.exp (k - mNew)
    let r := wkvSpecScan decay tf rest ⟨f1 * s.num + f2 * v, f1 * s.den + f2, mNew⟩
    (o :: r.1, r.2)

/-- Elementwise maximum of two channel vectors (`jnp.maximum`). -/
def vMax (a b : List ℝ) : List ℝ := List.zipWith max a b

/-- Elementwise sum of two channel vectors. -/
def vAdd (a b : List ℝ) : List ℝ := List.zipWith (· + ·) a b

/-- Elementwise difference of two channel vectors. -/
def vSub (a b : List ℝ) : List ℝ := List.zipWith (· - ·) a b

/-- Elementwise product of two channel vectors. -/
def vMul (a b : List ℝ) : List ℝ := List.zipWith (· * ·) a b

/-- Elementwise quotient of two channel vectors. -/
def vDiv (a b : List ℝ) : List ℝ := List.zipWith (· / ·) a b

/-- Elementwise exponential of a channel vector (`jnp.exp`). -/
def vExp (a : List ℝ) : List ℝ := a.map Real.exp

/-- The channel-vector accumulator slice `(num, den, max)` the attention
sublayer hands to the kernel (source line 191). -/
abbrev WkvSlice := List ℝ × List ℝ × List ℝ

/-- Channel-vector form of the accumulator update (source lines 64-69). -/
def wkvUpdateV (decay k v : List ℝ) (s : WkvSlice) : WkvSlice :=
  let mNew := vMax (vAdd s.2.2 decay) k
  (vAdd (vMul (vExp (vSub (vAdd s.2.2 decay) mNew)) s.1) (vMul (vExp (vSub k mNew)) v),
   vAdd (vMul (vExp (vSub (vAdd s.2.2 decay) mNew)) s.2.1) (vExp (vSub k mNew)),
   mNew)

/-- Channel-vector form of the per-timestep output (source lines 57-62). -/
def wkvOutputV (tf k v : List ℝ) (s : WkvSlice) : List ℝ :=
  let mOut := vMax s.2.2 (vAdd k tf)
  vDiv (vAdd (vMul (vExp (vSub s.2.2 mOut)) s.1) (vMul (vExp (vSub (vAdd k tf) mOut)) v))
    (vAdd (vMul (vExp (vSub s.2.2 mOut)) s.2.1) (vExp (vSub (vAdd k tf) mOut)))

/-- Channel-vector form of the kernel's time loop (source lines 53-69). -/
def wkvLoopV (decay tf : List ℝ) : List (List ℝ × List ℝ) → WkvSlice → List (List ℝ) × WkvSlice
  | [], s => ([], s)
  | (k, v) :: rest, s =>
    let o := wkvOutputV tf k v s
    let r := wkvLoopV decay tf rest (wkvUpdateV decay k v s)
    (o :: r.1, r.2)

/-- `rwkv_linear_attention` (source lines 40-74) with the channel axis kept as
a vector; this is the form the attention sublayer calls.  With no incoming
state, `jnp.zeros_like(key[:, 0])` makes the initial numerator and denominator
zero vectors of the key's channel width and the maximum the `-1e38` sentinel. -/
def rwkvLinearAttentionV (timeDecay timeFirst : List ℝ) (key value : List (List ℝ))
    (state : Option WkvSlice) (returnState : Bool) : List (List ℝ) × Option WkvSlice :=
  let s0 : WkvSlice :=
    match state with
    | none => (key.headI.map fun _ => (0 : ℝ), key.headI.map fun _ => (0 : ℝ),
        key.headI.map fun _ => (-1e38 : ℝ))
    | some s => s
  let r := wkvLoopV (timeDecay.map fun x => -Real.exp x) timeFirst (key.zip value) s0
  (r.1, if returnState || state.isSome then some r.2 else state)

/-- Error kinds surfaced by the numpy/jax operations the module uses. -/
inductive PyError where
  /-- `ValueError`: both `input_ids` and `inputs_embeds` were specified. -/
  | valueErrorBoth
  /-- `ValueError`: neither `input_ids` nor `inputs_embeds` was specified. -/
  | valueErrorNeither
  /-- Elementwise operation or in-place write on incompatible shapes. -/
  | broadcastError
  /-- `jnp.pad` called with a `pad_width` whose rank differs from the operand's. -/
  | padRankError
  /-- Subscript assignment into a `None` state. -/
  | noneSubscript
  /-- `TypeError`: a function called with arguments its signature rejects
  (here `jax.numpy.zeros` given three positional arguments). -/
  | typeError
  /-- Modelled from the spec: the `MissingState` error kind of spec section
  7(b).  No code path constructs it; it exists here only so that statements
  can distinguish the error the code actually raises from the one the spec
  describes. -/
  | missingState
  deriving DecidableEq

/-- Is an `Except` result an error? -/
def isErr {ε α : Type} : Except ε α → Bool
  | .error _ => true
  | .ok _ => false

/-- The State Container, viewed per batch row: the five per-layer-indexed
slots `state[0]..state[4]` of the source, each a map from a layer index to
the channel vector stored for that layer. -/
structure RwkvState where
  ffShift : Nat → List ℝ
  attnShift : Nat → List ℝ
  wkvNum : Nat → List ℝ
  wkvDen : Nat → List ℝ
  wkvMax : Nat → List ℝ

/-- `jnp.pad(hidden, ((0,0),(1,0),(0,1)))` of source lines 161-166 (the batch
axis dropped): one zero timestep is prepended and one zero channel appended,
so a `[T, C]` operand becomes `[T+1, C+1]`. -/
def padShiftAttn (hidden : HSeq) : HSeq :=
  ((hidden.headI.map fun _ => (0 : ℝ)) :: hidden).map fun r => r ++ [(0 : ℝ)]

/-- In-place write of a channel vector into row 0 of a 2-d array
(`shifted[:, 0] = ...`, source line 168); numpy raises when the widths of the
row and of the written vector disagree. -/
def setRow0 (rows : HSeq) (c : List ℝ) : Except PyError HSeq :=
  match rows with
  | [] => .error .broadcastError
  | r :: rest => if c.length = r.length then .ok (c :: rest) else .error .broadcastError

/-- The attention time-shift (source lines 158-168): with a single-step input
and a state, the shifted value is the layer's attention shift cache; otherwise
the input is padded and, when a state is present, the cache is written into
row 0 of the padded array. -/
def attnShifted (hidden : HSeq) (cache : Option (List ℝ)) : Except PyError HSeq :=
  match hidden.length, cache with
  | 1, some c => .ok [c]
  | _, _ =>
    let padded := padShiftAttn hidden
    match cache with
    | none => .ok padded
    | some c => setRow0 padded c

/-- The channel-mixing time-shift (source lines 267-277): the shortcut path
reads the layer's ff shift cache; the general path calls `jnp.pad` with four
axis pairs on a rank-3 operand, which numpy rejects outright. -/
def ffShifted (hidden : HSeq) (cache : Option (List ℝ)) : Except PyError HSeq :=
  match hidden.length, cache with
  | 1, some c => .ok [c]
  | _, _ => .error .padRankError

/-- `hidden * mix + shifted * (1 - mix)` on one timestep row; the elementwise
arithmetic requires the row widths to match the mix vector's width. -/
def mixRow (m hRow sRow : List ℝ) : Except PyError (List ℝ) :=
  if hRow.length = m.length ∧ sRow.length = m.length then
    .ok (List.zipWith (fun hs mc => hs.1 * mc + hs.2 * (1 - mc)) (hRow.zip sRow) m)
  else .error .broadcastError

/-- `hidden * mix + shifted * (1 - mix)` on whole sequences (source lines
169-171 and 278-279); jax rejects operands whose timestep counts differ. -/
def mixSeq (m : List ℝ) (hidden shifted : HSeq) : Except PyError HSeq :=
  if hidden.length = shifted.length then
    (hidden.zip shifted).mapM fun hs => mixRow m hs.1 hs.2
  else .error .broadcastError

/-- Dot product of two channel vectors. -/
def dot (a b : List ℝ) : ℝ := (List.zipWith (· * ·) a b).sum

/-- A bias-free `nn.Dense` applied to one vector; the weight is stored as its
list of output rows. -/
def matVec (w : List (List ℝ)) (x : List ℝ) : List ℝ := w.map fun row => dot row x

/-- A bias-free `nn.Dense` applied per timestep. -/
def denseSeq (w : List (List ℝ)) (xs : HSeq) : HSeq := xs.map (matVec w)

/-- The logistic sigmoid `jax.nn.sigmoid`. -/
def sigmoid (x : ℝ) : ℝ := 1 / (1 + Real.exp (-x))

/-- Elementwise product of two sequences (`receptance * rwkv`,
`receptance * value`). -/
def hadamardSeq (a b : HSeq) : HSeq := List.zipWith (List.zipWith (· * ·)) a b

/-- Learned parameters of `FlaxRwkvSelfAttention`. -/
structure AttnParams where
  timeDecay : List ℝ
  timeFirst : List ℝ
  timeMixKey : List ℝ
  timeMixValue : List ℝ
  timeMixReceptance : List ℝ
  keyW : List (List ℝ)
  valueW : List (List ℝ)
  receptanceW : List (List ℝ)
  outputW : List (List ℝ)

/-- `FlaxRwkvSelfAttention.extract_key_value` (source lines 157-182): shift,
three time-mixes, the key/value/receptance projections with a sigmoid on
receptance, and — after those reads — the overwrite of the layer's attention
shift cache (`state[1]`) with the last timestep of `hidden`. -/
def extractKeyValue (p : AttnParams) (i : Nat) (hidden : HSeq) (state : Option RwkvState) :
    Except PyError (HSeq × HSeq × HSeq × Option RwkvState) :=
  match attnShifted hidden (state.map fun s => s.attnShift i) with
  | .error e => .error e
  | .ok shifted =>
    match mixSeq p.timeMixKey hidden shifted with
    | .error e => .error e
    | .ok keyMix =>
      match mixSeq p.timeMixValue hidden shifted with
      | .error e => .error e
      | .ok valueMix =>
        match mixSeq p.timeMixReceptance hidden shifted with
        | .error e => .error e
        | .ok recMix =>
          .ok (((denseSeq p.receptanceW recMix).map fun r => r.map sigmoid),
            denseSeq p.keyW keyMix,
            denseSeq p.valueW valueMix,
            state.map fun s =>
              { s with attnShift := Function.update s.attnShift i (hidden.getLastD []) })

/-- `FlaxRwkvSelfAttention.__call__` (source lines 184-206): extract the
mixed projections, slice the layer's WKV accumulator out of the container, run
the kernel, write the returned accumulator back into slots 2-4 of the
container at this layer, and project the gated kernel output.  Writing back
into a `None` container (possible when `use_cache` is set without a state)
subscripts `None` and raises. -/
def selfAttention (p : AttnParams) (i : Nat) (hidden : HSeq) (state : Option RwkvState)
    (useCache : Bool) : Except PyError (HSeq × Option RwkvState) :=
  match extractKeyValue p i hidden state with
  | .error e => .error e
  | .ok (receptance, key, value, state1) =>
    let layerState : Option WkvSlice := state1.map fun s => (s.wkvNum i, s.wkvDen i, s.wkvMax i)
    let r := rwkvLinearAttentionV p.timeDecay p.timeFirst key value layerState useCache
    match state1, r.2 with
    | some s, some ls =>
      .ok (denseSeq p.outputW (hadamardSeq receptance r.1),
        some { s with wkvNum := Function.update s.wkvNum i ls.1,
                      wkvDen := Function.update s.wkvDen i ls.2.1,
                      wkvMax := Function.update s.wkvMax i ls.2.2 })
    | none, some _ => .error .noneSubscript
    | st1, none => .ok (denseSeq p.outputW (hadamardSeq receptance r.1), st1)

/-- Learned parameters of `FlaxRwkvFeedForward`. -/
structure FFParams where
  timeMixKey : List ℝ
  timeMixReceptance : List ℝ
  keyW : List (List ℝ)
  receptanceW : List (List ℝ)
  valueW : List (List ℝ)

/-- `FlaxRwkvFeedForward.__call__` (source lines 262-288): shift, two
time-mixes, squared-ReLU key path, value and sigmoid receptance projections,
then the overwrite of the layer's ff shift cache (`state[0]`) with the last
timestep of `hidden`, returning `receptance * value`. -/
def feedForward (p : FFParams) (i : Nat) (hidden : HSeq) (state : Option RwkvState) :
    Except PyError (HSeq × Option RwkvState) :=
  match ffShifted hidden (state.map fun s => s.ffShift i) with
  | .error e => .error e
  | .ok shifted =>
    match mixSeq p.timeMixKey hidden shifted with
    | .error e => .error e
    | .ok keyMix =>
      match mixSeq p.timeMixReceptance hidden shifted with
      | .error e => .error e
      | .ok recMix =>
        let key := (denseSeq p.keyW keyMix).map fun r => r.map fun x => max x 0 * max x 0
        let value := denseSeq p.valueW key
        let receptance := (denseSeq p.receptanceW recMix).map fun r => r.map sigmoid
        .ok (hadamardSeq receptance value,
          state.map fun s =>
            { s with ffShift := Function.update s.ffShift i (hidden.getLastD []) })

/-- What claim C8 asserts of a completed self-attention invocation at layer
`i` starting from container `s`: the attention shift slot of layer `i` now
holds the call's last timestep, every other layer's slots and the whole ff
shift slot are untouched, and the WKV slots of other layers are untouched.
An invocation that raised performed no state write at all. -/
def attnFrameOk (s : RwkvState) (i : Nat) (hidden : HSeq)
    (r : Except PyError (HSeq × Option RwkvState)) : Prop :=
  match r with
  | .error _ => True
  | .ok (_, none) => False
  | .ok (_, some s') =>
    s'.attnShift i = hidden.getLastD [] ∧
    (∀ j, j ≠ i → s'.attnShift j = s.attnShift j) ∧
    (∀ j, s'.ffShift j = s.ffShift j) ∧
    (∀ j, j ≠ i → s'.wkvNum j = s.wkvNum j ∧ s'.wkvDen j = s.wkvDen j ∧ s'.wkvMax j = s.wkvMax j)

/-- What claim C8 asserts of a completed channel-mixing invocation at layer
`i` starting from container `s`: the ff shift slot of layer `i` now holds the
call's last timestep and every other slot — other layers' ff shifts, the whole
attention shift slot, and all three WKV slots of every layer — is untouched. -/
def ffFrameOk (s : RwkvState) (i : Nat) (hidden : HSeq)
    (r : Except PyError (HSeq × Option RwkvState)) : Prop :=
  match r with
  | .error _ => True
  | .ok (_, none) => False
  | .ok (_, some s') =>
    s'.ffShift i = hidden.getLastD [] ∧
    (∀ j, j ≠ i → s'.ffShift j = s.ffShift j) ∧
    (∀ j, s'.attnShift j = s.attnShift j) ∧
    (∀ j, s'.wkvNum j = s.wkvNum j ∧ s'.wkvDen j = s.wkvDen j ∧ s'.wkvMax j = s.wkvMax j)

/-- `FlaxRwkvBlockCollection` after `setup` (source lines 374-387): the list
of blocks — treated by the loop as opaque callables taking the hidden sequence
and the state — together with the `layers_are_rescaled` attribute, which
`setup` initialises to `False` (and which nothing in the module ever sets). -/
structure BlockCollection where
  blocks : List (HSeq → Option RwkvState → HSeq × Option RwkvState)
  layersAreRescaled : Bool

/-- `FlaxRwkvBlockCollection.setup` (source lines 374-387). -/
def setupBlockCollection (blocks : List (HSeq → Option RwkvState → HSeq × Option RwkvState)) :
    BlockCollection :=
  { blocks := blocks, layersAreRescaled := false }

/-- The block loop of `FlaxRwkvBlockCollection.__call__` (source lines
403-414): each block transforms the hidden sequence and the state, and when
`layers_are_rescaled` holds, `rescale_every` is positive, and the 1-indexed
layer number is a multiple of `rescale_every`, the hidden sequence is halved.
The optional hidden-state/attention snapshot collection does not affect the
returned hidden sequence and is elided. -/
def collectionGo (rescaled : Bool) (re : Nat) :
    Nat → List (HSeq → Option RwkvState → HSeq × Option RwkvState) →
      HSeq → Option RwkvState → HSeq × Option RwkvState
  | _, [], h, st => (h, st)
  | idx, b :: bs, h, st =>
    let r := b h st
    let h2 := if rescaled = true ∧ 0 < re ∧ (idx + 1) % re = 0 then
        r.1.map (fun row => row.map fun x => x / 2)
      else r.1
    collectionGo rescaled re (idx + 1) bs h2 r.2

/-- `FlaxRwkvBlockCollection.__call__` (source lines 389-421), returning the
final hidden sequence and threaded state. -/
def blockCollectionCall (c : BlockCollection) (re : Nat) (h : HSeq) (st : Option RwkvState) :
    HSeq × Option RwkvState :=
  collectionGo c.layersAreRescaled re 0 c.blocks h st

/-- The configuration fields the state factory can see. -/
structure RwkvConfig where
  hiddenSize : Nat
  attentionHiddenSize : Nat
  numHiddenLayers : Nat

/-- A configuration whose attention width differs from its hidden width. -/
def cfgEx : RwkvConfig := { hiddenSize := 2, attentionHiddenSize := 3, numHiddenLayers := 4 }

/-- The multi-layer State Container tensor list of the module level:
five `[B, H, L]` tensors. -/
abbrev StArr := List (List (List (List ℝ)))

/-- The `shape` tuple of source line 478: `(batch, hidden_size,
num_layers)` — every slot's width is drawn from `config.hidden_size`. -/
def stateShape (B : Nat) (cfg : RwkvConfig) : Nat × Nat × Nat :=
  (B, cfg.hiddenSize, cfg.numHiddenLayers)

/-- `jnp.zeros(*shape, dtype=...)` of source lines 480-483: the starred
3-tuple passes three positional arguments to `jax.numpy.zeros(shape, dtype)`,
whose signature takes a single positional shape, so the call raises
`TypeError` for every shape (valid `torch.zeros(*shape)` syntax, mis-ported
to jax). -/
def jnpZerosUnpacked (shape : Nat × Nat × Nat) : Except PyError (List (List (List ℝ))) :=
  .error .typeError

/-- The lazy State-Container creation of `FlaxRwkvModule.__call__` (source
lines 478-485): `state = [jnp.zeros(*shape, dtype=...) for i in range(5)]`
followed by `state[4] -= 1e30`.  The comprehension raises `TypeError` on its
first element (see `jnpZerosUnpacked`), so no container is ever created; the
ok branch records the five-slot structure the code would build around the
zeros call it makes. -/
def initState (B : Nat) (cfg : RwkvConfig) : Except PyError StArr :=
  match jnpZerosUnpacked (stateShape B cfg) with
  | .error e => .error e
  | .ok z =>
    .ok [z, z, z, z, z.map fun p => p.map fun r => r.map fun x => x - 1e30]

/-- The lazy-creation guard `if use_cache and state is None` of
`FlaxRwkvModule.__call__` (source line 477), together with the raising
creation it guards. -/
def lazyState (useCache : Bool) (state : Option StArr) (B : Nat) (cfg : RwkvConfig) :
    Except PyError (Option StArr) :=
  if useCache && state.isNone then
    match initState B cfg with
    | .error e => .error e
    | .ok st => .ok (some st)
  else .ok state

/-- The `input_ids` / `inputs_embeds` validation and embedding lookup of
`FlaxRwkvModule.__call__` (source lines 469-475): both supplied raises, neither
supplied raises, and otherwise the embeddings are the supplied ones or the
lookup applied to `input_ids`. -/
def resolveInputs (embed : Nat → List ℝ) (ids : Option (List Nat)) (embeds : Option HSeq) :
    Except PyError HSeq :=
  match ids, embeds with
  | some _, some _ => .error .valueErrorBoth
  | none, none => .error .valueErrorNeither
  | some l, none => .ok (l.map embed)
  | none, some e => .ok e

/-- The input-validation and dispatch skeleton of `FlaxRwkvModule.__call__`
(source lines 469-498), with the block stack abstracted as a total function
and the fresh container supplied by the caller.  This form deliberately does
not model the lazy creation itself — in the source that creation raises
`TypeError` (see `jnpZerosUnpacked` and the faithful `moduleForward` below) —
so it is used only for the `input_ids`/`inputs_embeds` validation behaviour,
which is independent of that branch. -/
def rwkvModuleCall {St : Type} (embed : Nat → List ℝ)
    (blockFn : HSeq → Option St → HSeq × Option St)
    (ids : Option (List Nat)) (embeds : Option HSeq)
    (state : Option St) (useCache : Bool) (freshState : St) :
    Except PyError (HSeq × Option St) :=
  match resolveInputs embed ids embeds with
  | .error e => .error e
  | .ok h =>
    let st := if useCache && state.isNone then some freshState else state
    .ok (blockFn h st)

/-- `FlaxRwkvModule.__call__` (source lines 450-498) with the lazy state
creation modelled faithfully: validate and resolve the inputs, run the
guarded (raising) state creation when caching is requested without a state,
and only then hand the resolved embeddings and state to the block stack —
which, like the file's sublayer embeddings it is composed of, may itself
raise. -/
def moduleForward (embed : Nat → List ℝ)
    (blockFn : HSeq → Option StArr → Except PyError (HSeq × Option StArr))
    (ids : Option (List Nat)) (embeds : Option HSeq)
    (state : Option StArr) (useCache : Bool) (B : Nat) (cfg : RwkvConfig) :
    Except PyError (HSeq × Option StArr) :=
  match resolveInputs embed ids embeds with
  | .error e => .error e
  | .ok h =>
    match lazyState useCache state B cfg with
    | .error e => .error e
    | .ok st => blockFn h st

/-- A width-1 attention parameter set used for concrete evaluations. -/
def attnParamsEx : AttnParams :=
  { timeDecay := [0], timeFirst := [0], timeMixKey := [0], timeMixValue := [0],
    timeMixReceptance := [0], keyW := [[1]], valueW := [[1]],
    receptanceW := [[1]], outputW := [[1]] }

/-- A width-1 channel-mixing parameter set used for concrete evaluations. -/
def ffParamsEx : FFParams :=
  { timeMixKey := [0], timeMixReceptance := [0], keyW := [[1]], receptanceW := [[1]],
    valueW := [[1]] }

/-- A freshly initialised width-1 container: zero shift and accumulator slots
with the `-1e30` sentinel maximum, as the module's lazy creation produces. -/
def stateEx : RwkvState :=
  { ffShift := fun _ => [0], attnShift := fun _ => [0], wkvNum := fun _ => [0],
    wkvDen := fun _ => [0], wkvMax := fun _ => [-1e30] }

theorem wkvLoop_eq_spec (decay tf : ℝ) :
    ∀ (kvs : List (ℝ × ℝ)) (s : WkvAcc), wkvLoop decay tf kvs s = wkvSpecScan decay tf kvs s := by
  intro kvs
  induction kvs with
  | nil => intro s; rfl
  | cons kv rest ih =>
    intro s
    obtain ⟨k, v⟩ := kv
    simp only [wkvLoop, wkvSpecScan, ih, wkvOutput, wkvUpdate, wkvOutDen]

theorem wkvLoop_snd (decay tf : ℝ) :
    ∀ (kvs : List (ℝ × ℝ)) (s : WkvAcc), (wkvLoop decay tf kvs s).2 = wkvStateAfter decay s kvs := by
  intro kvs
  induction kvs with
  | nil => intro s; rfl
  | cons kv rest ih =>
    intro s
    obtain ⟨k, v⟩ := kv
    simp only [wkvLoop, wkvStateAfter, List.foldl_cons]
    exact ih _

theorem wkvStateAfter_cons (decay : ℝ) (kv : ℝ × ℝ) (rest : List (ℝ × ℝ)) (s : WkvAcc) :
    wkvStateAfter decay s (kv :: rest) = wkvStateAfter decay (wkvUpdate decay kv.1 kv.2 s) rest :=
  rfl

theorem wkvUpdate_den_pos (decay k v : ℝ) (s : WkvAcc) (h : 0 ≤ s.den) :
    0 < (wkvUpdate decay k v s).den :=
  add_pos_of_nonneg_of_pos (mul_nonneg (Real.exp_pos _).le h) (Real.exp_pos _)

theorem wkvStateAfter_den_nonneg (decay : ℝ) :
    ∀ (kvs : List (ℝ × ℝ)) (s : WkvAcc), 0 ≤ s.den → 0 ≤ (wkvStateAfter decay s kvs).den := by
  intro kvs
  induction kvs with
  | nil => intro s h; exact h
  | cons kv rest ih =>
    intro s h
    rw [wkvStateAfter_cons]
    exact ih _ (wkvUpdate_den_pos decay kv.1 kv.2 s h).le

theorem wkvStateAfter_den_pos (decay : ℝ) :
    ∀ (kvs : List (ℝ × ℝ)) (s : WkvAcc), 0 < s.den → 0 < (wkvStateAfter decay s kvs).den := by
  intro kvs
  induction kvs with
  | nil => intro s h; exact h
  | cons kv rest ih =>
    intro s h
    rw [wkvStateAfter_cons]
    exact ih _ (wkvUpdate_den_pos decay kv.1 kv.2 s h.le)

theorem wkvStateAfter_den_pos_of_ne_nil (decay : ℝ) (kvs : List (ℝ × ℝ)) (s : WkvAcc)
    (h0 : 0 ≤ s.den) (hne : kvs ≠ []) : 0 < (wkvStateAfter decay s kvs).den := by
  cases kvs with
  | nil => exact absurd rfl hne
  | cons kv rest =>
    rw [wkvStateAfter_cons]
    exact wkvStateAfter_den_pos decay rest _ (wkvUpdate_den_pos decay kv.1 kv.2 s h0)

theorem take_ne_nil_of_le {α : Type} (n : Nat) (l : List α) (h1 : 1 ≤ n) (h2 : n ≤ l.length) :
    l.take n ≠ [] := by
  cases l with
  | nil => simp at h2; omega
  | cons a rest =>
    cases n with
    | zero => omega
    | succ m => simp [List.take]

/-- Claim C2: for every per-channel key/value sequence, decay and bias
parameters, and optional initial accumulator, the kernel
`rwkv_linear_attention` returns the output sequence of the spec's sequential
scan (section 4.1) with `decay = -exp(time_decay)`, returns the scan's final
accumulator exactly when a state was supplied or requested, and starts from
`(0, 0, -1e38)` — zeros with the large negative sentinel — when no initial
state is given.  The kernel is elementwise over batch and channel, so one
lane carries the whole statement. -/
theorem claim2_kernel_matches_spec_scan (timeDecay timeFirst : ℝ) (key value : List ℝ)
    (state : Option WkvAcc) (returnState : Bool) :
    (rwkvLinearAttention timeDecay timeFirst key value state returnState).1
        = (wkvSpecScan (-Real.exp timeDecay) timeFirst (key.zip value) (wkvInit state)).1
      ∧ (rwkvLinearAttention timeDecay timeFirst key value state returnState).2
        = (if returnState || state.isSome then
            some (wkvSpecScan (-Real.exp timeDecay) timeFirst (key.zip value) (wkvInit state)).2
          else none)
      ∧ wkvInit none = ⟨0, 0, -1e38⟩ := by
  refine ⟨?_, ?_, rfl⟩
  · simp only [rwkvLinearAttention, wkvLoop_eq_spec]
  · simp only [rwkvLinearAttention, wkvLoop_eq_spec]
    cases state with
    | none => cases returnState <;> simp
    | some s => cases returnState <;> simp

/-- Claim C3: throughout the kernel's scan — over the reals, so every
quantity is intrinsically finite — if the initial accumulator is absent
(zeros with the sentinel maximum) or has a nonnegative denominator, then the
returned final accumulator is the fold of the per-step update, the running
denominator is nonnegative after every prefix and strictly positive after
every actual update, and the denominator `e1 * den_state + e2` of every
emitted output is strictly positive, so no output divides by zero. -/
theorem claim3_denominators_positive (timeDecay timeFirst : ℝ) (key value : List ℝ)
    (state : Option WkvAcc) (hden : 0 ≤ (wkvInit state).den) :
    (rwkvLinearAttention timeDecay timeFirst key value state true).2
        = some (wkvStateAfter (-Real.exp timeDecay) (wkvInit state) (key.zip value))
      ∧ (∀ n : Nat,
          0 ≤ (wkvStateAfter (-Real.exp timeDecay) (wkvInit state) ((key.zip value).take n)).den)
      ∧ (∀ n : Nat, 1 ≤ n → n ≤ (key.zip value).length →
          0 < (wkvStateAfter (-Real.exp timeDecay) (wkvInit state) ((key.zip value).take n)).den)
      ∧ (∀ (n : Nat) (k v : ℝ), (key.zip value)[n]? = some (k, v) →
          0 < wkvOutDen timeFirst k
            (wkvStateAfter (-Real.exp timeDecay) (wkvInit state) ((key.zip value).take n))) := by
  refine ⟨?_, ?_, ?_, ?_⟩
  · simp [rwkvLinearAttention, wkvLoop_snd]
  · intro n
    exact wkvStateAfter_den_nonneg _ _ _ hden
  · intro n h1 h2
    exact wkvStateAfter_den_pos_of_ne_nil _ _ _ hden (take_ne_nil_of_le n _ h1 h2)
  · intro n k v _
    have hd := wkvStateAfter_den_nonneg (-Real.exp timeDecay) ((key.zip value).take n) _ hden
    exact add_pos_of_nonneg_of_pos (mul_nonneg (Real.exp_pos _).le hd) (Real.exp_pos _)

/-- Witness for claim C3 at a concrete input: key `[1]`, value `[2]`, no
initial state. -/
theorem claim3_witness :
    0 < wkvOutDen 0 1 (wkvStateAfter (-Real.exp 0) (wkvInit none) (([(1 : ℝ)].zip [(2 : ℝ)]).take 0)) :=
  (claim3_denominators_positive 0 0 [1] [2] none (le_refl 0)).2.2.2 0 1 2 rfl

/-- Claim C4 fails on the code: the time-shift of both sublayers is supposed
to preserve the `[B, T, C]` shape with `shifted[0]` the cache-or-zero row and
`shifted[t] = hidden[t-1]`, but the attention path's
`jnp.pad(((0,0),(1,0),(0,1)))` grows a `[1, 1]` per-batch input to a `[2, 2]`
array (time and channel each gain an entry), and the channel-mixing path
passes four pad pairs for a rank-3 operand, which numpy rejects. -/
theorem claim4_time_shift_shape_bug :
    padShiftAttn [[(1 : ℝ)]] = [[0, 0], [1, 0]]
      ∧ (padShiftAttn [[(1 : ℝ)]]).length ≠ [[(1 : ℝ)]].length
      ∧ isErr (ffShifted [[(1 : ℝ)]] none) = true :=
  ⟨rfl, by decide, rfl⟩

/-- Claim C7 fails on the code: on a one-token input with a cache present the
shortcut returns the cached row, but the general padded construction on the
same input pads to a `[2, 2]` array and then raises writing the width-1 cache
into its width-2 first row — the two paths are not numerically identical. -/
theorem claim7_shortcut_vs_padded_bug :
    attnShifted [[(1 : ℝ)]] (some [(5 : ℝ)]) = Except.ok [[(5 : ℝ)]]
      ∧ isErr (setRow0 (padShiftAttn [[(1 : ℝ)]]) [(5 : ℝ)]) = true :=
  ⟨rfl, rfl⟩

/-- Claim C1 fails on the code: with a fresh container, a two-token
sequence-forward attention invocation raises (the padded shift has the wrong
shape, so the cache-row write and the time-mix reject it), while one-token
invocations of both sublayers complete — hence the sequence-forward run
produces no per-timestep outputs at all to match the threaded incremental
run. -/
theorem claim1_sequence_path_fails :
    isErr (selfAttention attnParamsEx 0 [[(1 : ℝ)], [(2 : ℝ)]] (some stateEx) true) = true
      ∧ isErr (selfAttention attnParamsEx 0 [[(1 : ℝ)]] (some stateEx) true) = false
      ∧ isErr (feedForward ffParamsEx 0 [[(1 : ℝ)]] (some stateEx)) = false :=
  ⟨rfl, rfl, rfl⟩

theorem extractKeyValue_state (p : AttnParams) (i : Nat) (hidden : HSeq) (s : RwkvState)
    (a b c : HSeq) (st1 : Option RwkvState)
    (h : extractKeyValue p i hidden (some s) = .ok (a, b, c, st1)) :
    st1 = some { s with attnShift := Function.update s.attnShift i (hidden.getLastD []) } := by
  unfold extractKeyValue at h
  split at h
  · simp at h
  · split at h
    · simp at h
    · split at h
      · simp at h
      · split at h
        · simp at h
        · injection h with h2
          simp only [Prod.mk.injEq] at h2
          exact h2.2.2.2.symm

theorem rwkvLinearAttentionV_some (td tf : List ℝ) (key value : List (List ℝ))
    (x : WkvSlice) (rs : Bool) :
    (rwkvLinearAttentionV td tf key value (some x) rs).2
      = some (wkvLoopV (td.map fun t => -Real.exp t) tf (key.zip value) x).2 := by
  simp [rwkvLinearAttentionV]

/-- Claim C8: with a State Container supplied, a completed self-attention
invocation at layer `i` performs exactly one shift-cache mutation — it
overwrites the layer-`i` attention shift slot with `hidden[T-1]` — leaving the
ff shift slot and every other layer's slots unchanged (its WKV write also
stays on layer `i`), and a completed channel-mixing invocation overwrites only
the layer-`i` ff shift slot with `hidden[T-1]`, leaving the attention shift
and all WKV slots of every layer unchanged.  The final two conjuncts show a
concrete one-token invocation of each sublayer that does complete. -/
theorem claim8_state_mutation_frame (p : AttnParams) (pf : FFParams) (i : Nat) (hidden : HSeq)
    (s : RwkvState) (uc : Bool) :
    attnFrameOk s i hidden (selfAttention p i hidden (some s) uc)
      ∧ ffFrameOk s i hidden (feedForward pf i hidden (some s))
      ∧ isErr (selfAttention attnParamsEx 1 [[(3 : ℝ)]] (some stateEx) false) = false
      ∧ isErr (feedForward ffParamsEx 1 [[(3 : ℝ)]] (some stateEx)) = false := by
  refine ⟨?_, ?_, rfl, rfl⟩
  · have main : ∀ r, selfAttention p i hidden (some s) uc = r → attnFrameOk s i hidden r := by
      intro r hr
      unfold selfAttention at hr
      split at hr
      · rw [← hr]; simp [attnFrameOk]
      · rename_i receptance key value state1 heq
        have hst := extractKeyValue_state p i hidden s _ _ _ _ heq
        rw [hst] at hr
        simp only [Option.map, rwkvLinearAttentionV_some] at hr
        rw [← hr]
        dsimp only [attnFrameOk]
        refine ⟨?_, ?_, ?_, ?_⟩
        · simp [Function.update_same]
        · intro j hj; simp [Function.update_noteq hj]
        · intro j; rfl
        · intro j hj
          exact ⟨Function.update_noteq hj _ _, Function.update_noteq hj _ _,
            Function.update_noteq hj _ _⟩
    exact main _ rfl
  · have main : ∀ r, feedForward pf i hidden (some s) = r → ffFrameOk s i hidden r := by
      intro r hr
      unfold feedForward at hr
      split at hr
      · rw [← hr]; simp [ffFrameOk]
      · split at hr
        · rw [← hr]; simp [ffFrameOk]
        · split at hr
          · rw [← hr]; simp [ffFrameOk]
          · rw [← hr]
            dsimp only [ffFrameOk, Option.map]
            refine ⟨?_, ?_, ?_, ?_⟩
            · simp [Function.update_same]
            · intro j hj; simp [Function.update_noteq hj]
            · intro j; rfl
            · intro j; exact ⟨rfl, rfl, rfl⟩
    exact main _ rfl

theorem collectionGo_false (re : Nat) :
    ∀ (blocks : List (HSeq → Option RwkvState → HSeq × Option RwkvState)) (idx : Nat)
      (h : HSeq) (st : Option RwkvState),
      collectionGo false re idx blocks h st
        = blocks.foldl (fun acc b => b acc.1 acc.2) (h, st) := by
  intro blocks
  induction blocks with
  | nil => intro idx h st; rfl
  | cons b bs ih =>
    intro idx h st
    simp only [collectionGo, List.foldl_cons, Bool.false_eq_true, false_and, if_false, ih]

/-- Counterexample to claim C5: one identity block, `rescale_every = 1`,
hidden `[[1]]` — the claim demands the post-block hidden sequence `[[1/2]]`,
but the collection leaves it at `[[1]]` because `layers_are_rescaled` is
`False`. -/
theorem claim5_counterexample :
    (blockCollectionCall (setupBlockCollection [fun h st => (h, st)]) 1 [[(1 : ℝ)]] none).1
        = [[(1 : ℝ)]]
      ∧ [[(1 : ℝ)]] ≠ [[(1 : ℝ) / 2]] := by
  refine ⟨rfl, ?_⟩
  simp only [ne_eq, List.cons.injEq, and_true]
  intro hcontra
  norm_num at hcontra

/-- Claim C5 amended: the Block Stack never halves the hidden sequence —
`setup` initialises `layers_are_rescaled` to `False` and nothing ever sets it,
so for every block list, rescale interval and input the collection is the
plain sequential composition of its blocks. -/
theorem claim5_no_rescale (blocks : List (HSeq → Option RwkvState → HSeq × Option RwkvState))
    (re : Nat) (h : HSeq) (st : Option RwkvState) :
    blockCollectionCall (setupBlockCollection blocks) re h st
      = blocks.foldl (fun acc b => b acc.1 acc.2) (h, st) :=
  collectionGo_false re blocks 0 h st

/-- Claim C6 fails on the code: the lazily created State Container is never
created.  `jnp.zeros(*shape, dtype=...)` unpacks the `(batch, hidden_size,
num_layers)` tuple into three positional arguments of
`jax.numpy.zeros(shape, dtype)` and raises `TypeError` on every call, so the
creation — and with it every caching call that supplies no state — errors
before any slot exists.  The last two conjuncts record that even the shape
tuple the code meant to use draws every slot's width from `hidden_size`
(2 in this configuration), not from the attention width the claim states
(3 here). -/
theorem claim6_state_factory_raises :
    initState 1 cfgEx = Except.error PyError.typeError
      ∧ lazyState true none 1 cfgEx = Except.error PyError.typeError
      ∧ stateShape 1 cfgEx = (1, 2, 4)
      ∧ cfgEx.attentionHiddenSize = 3 :=
  ⟨rfl, rfl, rfl, rfl⟩

/-- Counterexample to claim C9: a one-token call with a null state and caching
requested fails with the `TypeError` of the raising state creation — not with
any missing-state error. -/
theorem claim9_error_kind :
    moduleForward (fun _ => [(0 : ℝ)]) (fun h st => Except.ok (h, st))
        (some [7]) none none true 1 cfgEx
        = Except.error PyError.typeError
      ∧ moduleForward (fun _ => [(0 : ℝ)]) (fun h st => Except.ok (h, st))
          (some [7]) none none true 1 cfgEx
        ≠ Except.error PyError.missingState := by
  refine ⟨rfl, ?_⟩
  intro h
  have h2 : (Except.error PyError.typeError : Except PyError (HSeq × Option StArr))
      = Except.error PyError.missingState := h
  injection h2 with h3
  exact PyError.noConfusion h3

/-- Claim C9 amended: an incremental call (T = 1) without a prior state does
fail, but not with a missing-state error — no such check or error exists in
the code.  With caching requested the lazy state creation itself raises
`TypeError` before any block runs; without caching the module hands the
stateless input straight to the block stack, and there the first
self-attention raises a shape error in the broken padded time-shift (shown on
the file's own sublayer at a concrete one-token input). -/
theorem claim9_fails_without_missing_state (embed : Nat → List ℝ)
    (blockFn : HSeq → Option StArr → Except PyError (HSeq × Option StArr))
    (tok : Nat) (B : Nat) (cfg : RwkvConfig) :
    moduleForward embed blockFn (some [tok]) none none true B cfg
        = Except.error PyError.typeError
      ∧ moduleForward embed blockFn (some [tok]) none none false B cfg
        = blockFn [embed tok] none
      ∧ isErr (selfAttention attnParamsEx 0 [[(1 : ℝ)]] none false) = true :=
  ⟨rfl, rfl, rfl⟩

/-- Claim C10: the module-level input validation raises a `ValueError` exactly
when both or neither of `input_ids` / `inputs_embeds` are supplied; with only
`input_ids` the embedding lookup is applied to them and its result — not the
raw ids — is what the block stack receives; with only `inputs_embeds` they are
used as is. -/
theorem claim10_input_validation (embed : Nat → List ℝ) (ids : Option (List Nat))
    (embeds : Option HSeq) :
    (isErr (resolveInputs embed ids embeds) = true ↔
        (ids.isSome = true ∧ embeds.isSome = true) ∨ (ids = none ∧ embeds = none))
      ∧ (∀ l, ids = some l → embeds = none →
          resolveInputs embed ids embeds = Except.ok (l.map embed))
      ∧ (∀ e, ids = none → embeds = some e → resolveInputs embed ids embeds = Except.ok e)
      ∧ (∀ (St : Type) (blockFn : HSeq → Option St → HSeq × Option St) (st : Option St)
          (uc : Bool) (fresh : St) (l : List Nat), ids = some l → embeds = none →
          rwkvModuleCall embed blockFn ids embeds st uc fresh
            = Except.ok (blockFn (l.map embed) (if uc && st.isNone then some fresh else st))) := by
  cases ids <;> cases embeds <;> simp [resolveInputs, isErr, rwkvModuleCall]

/-- Witness for claim C10 at a concrete input: only `input_ids` supplied. -/
theorem claim10_witness :
    resolveInputs (fun _ => [(1 : ℝ)]) (some [3]) none = Except.ok [[(1 : ℝ)]] :=
  (claim10_input_validation (fun _ => [(1 : ℝ)]) (some [3]) none).2.1 [3] rfl rfl

end Rwkv
